import Mathlib

/-!
# Verification of the mpesa-api-project gateway logic

Shallow embedding of the pure and stateful logic of the repository:
the helper functions (`generatePassword`, `isValidAmount`,
`formatPhoneNumber` from `src/utils/helpers.js`), the in-memory rate
limiter (`rateLimit` from the middleware module), the OAuth token cache
(`MpesaService.getAccessToken`), the STK-push payload construction
(`MpesaService.initiateSTKPush`), the callback processor
(`MpesaService.processCallback`) and the callback HTTP handler
(`MpesaController.handleCallback`).

JavaScript strings that are only concatenated and base64-encoded are
modelled as byte lists (`List Nat`, each element `< 256`, the UTF-8
bytes that `Buffer.from` would produce).  Wall-clock instants are
modelled as integers, amounts as rationals (JavaScript numbers, with a
separate `nan` constructor where `isNaN` matters).
-/

deriving instance DecidableEq for Except

namespace Mpesa

/-! ## Base64 (Node Buffer base64 encoding) -/

/-- The base64 alphabet: index `0`–`63` map to `A–Z a–z 0–9 + /`, and
index `64` is used for the padding character `=`. -/
def b64Char (n : Nat) : Char :=
  if n < 26 then Char.ofNat (65 + n)
  else if n < 52 then Char.ofNat (97 + (n - 26))
  else if n < 62 then Char.ofNat (48 + (n - 52))
  else if n = 62 then '+'
  else if n = 63 then '/'
  else '='

/-- The 6-bit units (with `64` standing for a padding `=`) of the base64
encoding of a byte list, grouped three bytes to four units, exactly as
the Node base64 encoder emits them. -/
def base64Units : List Nat → List Nat
  | [] => []
  | [a] => [a / 4, a % 4 * 16, 64, 64]
  | [a, b] => [a / 4, a % 4 * 16 + b / 16, b % 16 * 4, 64]
  | a :: b :: c :: rest =>
      a / 4 :: (a % 4 * 16 + b / 16) :: (b % 16 * 4 + c / 64) :: c % 64 ::
        base64Units rest

/-- Model of the Node base64 encoding of a byte list. -/
def base64Encode (l : List Nat) : String :=
  ((base64Units l).map b64Char).asString

/-- Model of `generatePassword(businessShortCode, passkey, timestamp)`
from `src/utils/helpers.js` lines 10–13: concatenate the three strings and
base64-encode the concatenation.  The three strings are given as their
byte lists. -/
def generatePassword (businessShortCode passkey timestamp : List Nat) : String :=
  base64Encode (businessShortCode ++ passkey ++ timestamp)

/-! ### Proof helpers: a base64 decoder gives injectivity by round trip -/

/-- Proof device (not part of the source): decode the 6-bit unit stream
back to bytes. -/
def base64DecodeUnits : List Nat → List Nat
  | x1 :: x2 :: x3 :: x4 :: rest =>
      if x3 = 64 then [x1 * 4 + x2 / 16]
      else if x4 = 64 then [x1 * 4 + x2 / 16, x2 % 16 * 16 + x3 / 4]
      else (x1 * 4 + x2 / 16) :: (x2 % 16 * 16 + x3 / 4) :: (x3 % 4 * 64 + x4) ::
        base64DecodeUnits rest
  | _ => []

/-- A byte list all of whose entries are genuine bytes. -/
def ByteList (l : List Nat) : Prop := ∀ x ∈ l, x < 256

instance (l : List Nat) : Decidable (ByteList l) := by
  unfold ByteList; infer_instance

theorem base64DecodeUnits_base64Units (l : List Nat) (hl : ByteList l) :
    base64DecodeUnits (base64Units l) = l := by
  induction l using base64Units.induct with
  | case1 => simp [base64Units, base64DecodeUnits]
  | case2 a =>
      have ha : a < 256 := hl a (by simp)
      simp only [base64Units, base64DecodeUnits, reduceIte,
        List.cons.injEq, and_true]
      omega
  | case3 a b =>
      have ha : a < 256 := hl a (by simp)
      have hb : b < 256 := hl b (by simp)
      have h3 : ¬ b % 16 * 4 = 64 := by omega
      simp only [base64Units, base64DecodeUnits, h3, ite_false, reduceIte,
        List.cons.injEq, and_true]
      omega
  | case4 a b c rest ih =>
      have ha : a < 256 := hl a (by simp)
      have hb : b < 256 := hl b (by simp)
      have hc : c < 256 := hl c (by simp)
      have h3 : ¬ b % 16 * 4 + c / 64 = 64 := by omega
      have h4 : ¬ c % 64 = 64 := by omega
      have ihr : base64DecodeUnits (base64Units rest) = rest :=
        ih (fun x hx => hl x (by simp [hx]))
      simp only [base64Units, base64DecodeUnits, h3, h4, ite_false, ihr,
        List.cons.injEq, and_true]
      omega

theorem base64Units_le (l : List Nat) (hl : ByteList l) :
    ∀ u ∈ base64Units l, u ≤ 64 := by
  induction l using base64Units.induct with
  | case1 => simp [base64Units]
  | case2 a =>
      have ha : a < 256 := hl a (by simp)
      simp only [base64Units, List.mem_cons, List.not_mem_nil, or_false]
      rintro u (rfl | rfl | rfl | rfl) <;> omega
  | case3 a b =>
      have ha : a < 256 := hl a (by simp)
      have hb : b < 256 := hl b (by simp)
      simp only [base64Units, List.mem_cons, List.not_mem_nil, or_false]
      rintro u (rfl | rfl | rfl | rfl) <;> omega
  | case4 a b c rest ih =>
      have ha : a < 256 := hl a (by simp)
      have hb : b < 256 := hl b (by simp)
      have hc : c < 256 := hl c (by simp)
      have ihr := ih (fun x hx => hl x (by simp [hx]))
      simp only [base64Units, List.mem_cons]
      rintro u (rfl | rfl | rfl | rfl | hu)
      · omega
      · omega
      · omega
      · omega
      · exact ihr u hu

theorem b64Char_inj : ∀ a ≤ 64, ∀ b ≤ 64, b64Char a = b64Char b → a = b := by
  decide

theorem map_b64Char_inj (u1 : List Nat) :
    ∀ u2 : List Nat, (∀ x ∈ u1, x ≤ 64) → (∀ x ∈ u2, x ≤ 64) →
      u1.map b64Char = u2.map b64Char → u1 = u2 := by
  induction u1 with
  | nil =>
      intro u2 _ _ h
      cases u2 with
      | nil => rfl
      | cons y ys => simp at h
  | cons x xs ih =>
      intro u2 b1 b2 h
      cases u2 with
      | nil => simp at h
      | cons y ys =>
          simp only [List.map_cons, List.cons.injEq] at h
          have hx := b64Char_inj x (b1 x (by simp)) y (b2 y (by simp)) h.1
          have hxs := ih ys (fun z hz => b1 z (by simp [hz]))
            (fun z hz => b2 z (by simp [hz])) h.2
          rw [hx, hxs]

theorem base64Encode_inj (l1 l2 : List Nat) (h1 : ByteList l1)
    (h2 : ByteList l2) (h : base64Encode l1 = base64Encode l2) : l1 = l2 := by
  have hmap : (base64Units l1).map b64Char = (base64Units l2).map b64Char := by
    have := congrArg String.data h
    simpa [base64Encode, List.asString] using this
  have hunits : base64Units l1 = base64Units l2 :=
    map_b64Char_inj _ _ (base64Units_le l1 h1) (base64Units_le l2 h2) hmap
  calc l1 = base64DecodeUnits (base64Units l1) :=
        (base64DecodeUnits_base64Units l1 h1).symm
    _ = base64DecodeUnits (base64Units l2) := by rw [hunits]
    _ = l2 := base64DecodeUnits_base64Units l2 h2

/-! ## `isValidAmount` (`src/utils/helpers.js` lines 34–36)

`return !isNaN(amount) && amount >= 1 && amount <= 70000;`

A JavaScript number is modelled as either `NaN` or a rational. -/

/-- A JavaScript numeric value: `NaN`, or an actual (rational) number. -/
inductive JSNum where
  | nan : JSNum
  | num : ℚ → JSNum
deriving DecidableEq

/-- Model of `isValidAmount(amount)` from `src/utils/helpers.js` lines 34–36. -/
def isValidAmount : JSNum → Bool
  | .nan => false
  | .num q => 1 ≤ q ∧ q ≤ 70000

/-! ## `formatPhoneNumber` (`src/utils/helpers.js` lines 196–218) -/

/-- The final regex gate of `formatPhoneNumber`:
`formatted.match(/^254[0-9]{9}$/)` is non-null. -/
def matches254 (l : List Char) : Bool :=
  l.length = 12 && List.isPrefixOf ['2', '5', '4'] l && l.all Char.isDigit

/-- The rewriting steps of `formatPhoneNumber` before its final regex
gate: strip non-digits (the replace of non-digit characters), then rewrite a leading
`0`, a bare `712`/`722`/`733` subscriber form, or a leading `+254`
(dead after the strip, kept as in the source). -/
def normalizePhoneDigits (phoneNumber : String) : List Char :=
  let d := phoneNumber.data.filter Char.isDigit
  if List.isPrefixOf ['0'] d then ['2', '5', '4'] ++ d.drop 1
  else if List.isPrefixOf ['7', '1', '2'] d ∨ List.isPrefixOf ['7', '2', '2'] d ∨
      List.isPrefixOf ['7', '3', '3'] d then ['2', '5', '4'] ++ d
  else if List.isPrefixOf ['+', '2', '5', '4'] d then d.drop 1
  else d

/-- Model of `formatPhoneNumber(phoneNumber)` from `src/utils/helpers.js`
lines 196–218: normalize, then require `^254[0-9]{9}$`, throwing
otherwise. -/
def formatPhoneNumber (phoneNumber : String) : Except String String :=
  let f := normalizePhoneDigits phoneNumber
  if matches254 f then .ok f.asString
  else .error "Invalid phone number format. Use 254XXXXXXXXX format"

/-! ## Rate limiter (`rateLimit`, middleware module lines 33–69) -/

/-- Outcome of one request through the rate-limiting middleware. -/
inductive RateDecision where
  | allowed : RateDecision
  | limited (remainingTime : ℤ) : RateDecision
deriving DecidableEq

/-- One request through `rateLimit(maxRequests, windowMs)` for a single
client whose stored record is `record`, at time `currentTime` (ms).
Returns the decision and the record stored afterwards.

Mirrors the source: prune to `requestTime > windowStart`, reject when
the pruned length reaches `maxRequests` (reporting
`Math.ceil((clientRecord[0] + windowMs - currentTime) / 1000)` seconds,
`clientRecord[0]` being the head of the pruned record — defaulted to `0`
here for the vacuous `maxRequests = 0` case where the source would read
`undefined`), otherwise push `currentTime` and write the record back.
On rejection the source returns before `rateLimitStore.set`, so the
stored record is unchanged. -/
def rateLimit (maxRequests : ℕ) (windowMs : ℤ) (record : List ℤ)
    (currentTime : ℤ) : RateDecision × List ℤ :=
  let windowStart := currentTime - windowMs
  let clientRecord := record.filter (fun t => windowStart < t)
  if maxRequests ≤ clientRecord.length then
    (.limited ((clientRecord.headD 0 + windowMs - currentTime + 999) / 1000),
      record)
  else
    (.allowed, clientRecord ++ [currentTime])

/-! ## Token cache (`MpesaService.getAccessToken`, service lines 240–270)

The two instance fields `this.accessToken` / `this.tokenExpiry` form the
cache state.  Instants are integers (seconds); the `moment` expiry
object is always truthy when set, the token string is truthy iff
non-empty.  The outcome of the one possible `axios.get` credential
exchange is passed in as an oracle. -/

/-- The `this.accessToken` / `this.tokenExpiry` fields of the service. -/
structure TokenState where
  accessToken : Option String
  tokenExpiry : Option ℤ
deriving DecidableEq

/-- Body of a successful HTTP response from the auth endpoint:
`response.data.access_token` (possibly absent) and
`response.data.expires_in`. -/
structure AuthResponse where
  access_token : Option String
  expires_in : ℤ
deriving DecidableEq

/-- Outcome of the `axios.get(this.authUrl, ...)` call. -/
inductive NetResult where
  | ok : AuthResponse → NetResult
  | err : NetResult
deriving DecidableEq

/-- JavaScript truthiness of an optional string (undefined, null and the
empty string are falsy). -/
def jsTruthyStr : Option String → Bool
  | none => false
  | some s => !s.isEmpty

/-- The cache-hit guard of `getAccessToken`:
`this.accessToken && this.tokenExpiry && moment().isBefore(this.tokenExpiry)`. -/
def cacheValid (st : TokenState) (now : ℤ) : Bool :=
  jsTruthyStr st.accessToken &&
    match st.tokenExpiry with
    | none => false
    | some e => now < e

/-- Model of `MpesaService.getAccessToken` (service lines 240–270).  Returns the
result (`.error ()` models the thrown `AuthError`), the state of the two
cache fields afterwards, and the number of network calls performed. -/
def getAccessToken (st : TokenState) (now : ℤ) (net : NetResult) :
    Except Unit String × TokenState × ℕ :=
  if cacheValid st now then (.ok (st.accessToken.getD ""), st, 0)
  else
    match net with
    | .err => (.error (), st, 1)
    | .ok r =>
        if jsTruthyStr r.access_token then
          (.ok (r.access_token.getD ""),
            ⟨r.access_token, some (now + (r.expires_in - 60))⟩, 1)
        else (.error (), st, 1)

/-- The credential exchange fails: network error, or a 2xx response
without a truthy `access_token` (the source then throws a failed-to-obtain-token error, caught and
rethrown as the auth failure). -/
def exchangeFails : NetResult → Bool
  | .err => true
  | .ok r => !jsTruthyStr r.access_token

/-! ## STK-push payload (`MpesaService.initiateSTKPush`, service
lines 275–314, up to the `axios.post`) -/

/-- JavaScript or-else on an optional string (undefined and the empty
string are falsy). -/
def jsOrStr (a : Option String) (b : String) : String :=
  match a with
  | none => b
  | some s => if s = "" then b else s

/-- Model of `Math.round` on a JavaScript number: half-up toward `+∞`. -/
def jsRound (q : ℚ) : ℤ := ⌊q + 1 / 2⌋

/-- The transaction-type selector of `initiateSTKPush` (service lines
281–285):
a truthy reference whose lowercase form contains the `till` marker
picks `"CustomerBuyGoodsOnline"`, else `"CustomerPayBillOnline"`.
The source computes this into a local `transactionType` variable. -/
def selectTransactionType (accountReference : Option String) : String :=
  match accountReference with
  | none => "CustomerPayBillOnline"
  | some r =>
      if r ≠ "" ∧ "till".data <:+: r.data.map Char.toLower then
        "CustomerBuyGoodsOnline"
      else "CustomerPayBillOnline"

/-- Configuration fields of `MpesaService` read while building the
payload. -/
structure MpesaConfig where
  businessShortCode : String
  callbackUrl : String
  accountReference : String
  transactionDesc : String

/-- The JSON object POSTed to the STK-push endpoint (service lines
302–314). -/
structure STKPushPayload where
  BusinessShortCode : String
  Password : String
  Timestamp : String
  TransactionType : String
  Amount : ℤ
  PartyA : String
  PartyB : String
  PhoneNumber : String
  CallBackURL : String
  AccountReference : String
  TransactionDesc : String
deriving DecidableEq

/-- Model of `MpesaService.initiateSTKPush` up to and including the construction
of the request payload (service lines 275–314): the truthiness guard on
the arguments, the (unused) transaction-type selection, phone
formatting, the amount range check, and the payload literal — whose
`TransactionType` field is the string literal
`"CustomerPayBillOnline"` in the source (line 306), not the selected
`transactionType` variable.  `password` and `timestamp` stand for the
values produced from the clock at lines 298–299. -/
def initiateSTKPush (cfg : MpesaConfig) (phoneNumber : String) (amount : ℚ)
    (accountReference transactionDesc : Option String)
    (password timestamp : String) : Except String STKPushPayload :=
  if phoneNumber = "" ∨ amount = 0 then
    .error "Phone number and amount are required"
  else
    let _transactionType := selectTransactionType accountReference
    match formatPhoneNumber phoneNumber with
    | .error e => .error e
    | .ok formattedPhone =>
        if amount < 1 ∨ 70000 < amount then
          .error "Amount must be between 1 and 70,000 KES"
        else
          .ok {
            BusinessShortCode := cfg.businessShortCode
            Password := password
            Timestamp := timestamp
            TransactionType := "CustomerPayBillOnline"
            Amount := jsRound amount
            PartyA := formattedPhone
            PartyB := cfg.businessShortCode
            PhoneNumber := formattedPhone
            CallBackURL := cfg.callbackUrl
            AccountReference := jsOrStr accountReference cfg.accountReference
            TransactionDesc := jsOrStr transactionDesc cfg.transactionDesc
          }

/-! ## Callback processor (`MpesaService.processCallback`, service
lines 419–474) and HTTP handler
(`MpesaController.handleCallback`, controller lines 81–116) -/

/-- A JSON scalar carried in callback fields. -/
inductive JVal where
  | str : String → JVal
  | int : ℤ → JVal
deriving DecidableEq

/-- One entry of `stkCallback.CallbackMetadata.Item`. -/
structure MetaItem where
  Name : Option String
  Value : Option JVal
deriving DecidableEq

/-- Shape of `stkCallback.CallbackMetadata`. -/
structure CallbackMetadata where
  Item : Option (List MetaItem)
deriving DecidableEq

/-- Shape of `Body.stkCallback`.  `ResultCode` is a JavaScript number compared
with `=== 0`; an absent field is `none`. -/
structure StkCallback where
  MerchantRequestID : Option JVal
  CheckoutRequestID : Option JVal
  ResultCode : Option ℤ
  ResultDesc : Option JVal
  CallbackMetadata : Option CallbackMetadata
deriving DecidableEq

/-- The `Body` member of the provider notification. -/
structure CallbackBody where
  stkCallback : Option StkCallback
deriving DecidableEq

/-- The notification object delivered to the callback route. -/
structure CallbackData where
  Body : Option CallbackBody
deriving DecidableEq

/-- The key under which the metadata fold stores one item
(the `switch (item.Name)` at service lines 442–457; the `default` arm
writes under the raw name, and JavaScript stringifies an `undefined`
key). -/
def metaKey : Option String → String
  | some "Amount" => "amount"
  | some "MpesaReceiptNumber" => "mpesaReceiptNumber"
  | some "TransactionDate" => "transactionDate"
  | some "PhoneNumber" => "phoneNumber"
  | some n => n
  | none => "undefined"

/-- The normalized record `processCallback` returns. -/
structure CallbackResult where
  merchantRequestID : Option JVal
  checkoutRequestID : Option JVal
  resultCode : Option ℤ
  resultDesc : Option JVal
  status : String
  paymentData : Option (List (String × Option JVal))
deriving DecidableEq

/-- Model of `MpesaService.processCallback` (service lines 419–474).  Every
`TypeError` raised by the destructuring or the metadata accesses is
caught by the surrounding `try`/`catch` and rethrown as the processing failure message, modelled as `.error`. -/
def processCallback (cb : CallbackData) : Except String CallbackResult :=
  match cb.Body with
  | none => .error "Failed to process M-Pesa callback"
  | some body =>
      match body.stkCallback with
      | none => .error "Failed to process M-Pesa callback"
      | some stk =>
          if stk.ResultCode = some 0 then
            match stk.CallbackMetadata with
            | none => .error "Failed to process M-Pesa callback"
            | some md =>
                match md.Item with
                | none => .error "Failed to process M-Pesa callback"
                | some items =>
                    .ok {
                      merchantRequestID := stk.MerchantRequestID
                      checkoutRequestID := stk.CheckoutRequestID
                      resultCode := stk.ResultCode
                      resultDesc := stk.ResultDesc
                      status := "SUCCESS"
                      paymentData :=
                        some (items.map fun it => (metaKey it.Name, it.Value))
                    }
          else
            .ok {
              merchantRequestID := stk.MerchantRequestID
              checkoutRequestID := stk.CheckoutRequestID
              resultCode := stk.ResultCode
              resultDesc := stk.ResultDesc
              status := "FAILED"
              paymentData := none
            }

/-- Model of `MpesaController.handleCallback` (controller lines 81–116): process
the body; answer HTTP 200 with `success: true` on success and HTTP 200
with `success: false` when processing threw. -/
def handleCallback (body : CallbackData) : ℕ × Bool :=
  match processCallback body with
  | .ok _ => (200, true)
  | .error _ => (200, false)

/-! ## Theorems -/

/-- C4 counterexample: `generatePassword` is not injective across
triples.  The distinct triples `("ab", "c", "")` and `("a", "bc", "")`
(byte lists `[97, 98] / [99] / []` and `[97] / [98, 99] / []`)
concatenate to the same string, so the two base64 outputs coincide. -/
theorem generatePassword_not_injective :
    (([97, 98], [99], ([] : List ℕ)) ≠ ([97], [98, 99], ([] : List ℕ))) ∧
    generatePassword [97, 98] [99] [] = generatePassword [97] [98, 99] [] := by
  exact ⟨by decide, by decide⟩

/-- C4 (amended): `generatePassword` is deterministic — equal inputs
give the equal base64 string — and two triples of byte strings give the
same output exactly when their concatenations coincide (so outputs
differ whenever the concatenations differ, though not necessarily when
only the triples differ). -/
theorem generatePassword_det_and_concat_inj
    (s1 p1 t1 s2 p2 t2 : List ℕ)
    (h1 : ByteList (s1 ++ p1 ++ t1)) (h2 : ByteList (s2 ++ p2 ++ t2)) :
    generatePassword s1 p1 t1 = generatePassword s1 p1 t1 ∧
    (generatePassword s1 p1 t1 = generatePassword s2 p2 t2 ↔
      s1 ++ p1 ++ t1 = s2 ++ p2 ++ t2) := by
  refine ⟨rfl, ?_, ?_⟩
  · intro h
    exact base64Encode_inj _ _ h1 h2 h
  · intro h
    unfold generatePassword
    rw [h]

/-- Witness for the C4 theorem at the byte strings `"1" / "2" / "3"`
and `"1" / "23" / ""`. -/
theorem generatePassword_det_and_concat_inj_witness :
    generatePassword [49] [50] [51] = generatePassword [49] [50] [51] ∧
    (generatePassword [49] [50] [51] = generatePassword [49] [50, 51] [] ↔
      [49] ++ [50] ++ [51] = [49] ++ [50, 51] ++ ([] : List ℕ)) :=
  generatePassword_det_and_concat_inj [49] [50] [51] [49] [50, 51] []
    (by decide) (by decide)

/-- C3 counterexample: the amount validator accepts the non-integer
`1.5` (`isNaN(1.5)` is false and `1 <= 1.5 <= 70000`), while the claim
says every non-integer value is rejected. -/
theorem isValidAmount_accepts_noninteger :
    isValidAmount (.num (3 / 2)) = true ∧ ¬ ∃ n : ℤ, (3 / 2 : ℚ) = (n : ℚ) := by
  refine ⟨by norm_num [isValidAmount], ?_⟩
  rintro ⟨n, hn⟩
  have h3 : (n : ℚ) * 2 = 3 := by rw [← hn]; norm_num
  have h4 : (n * 2 : ℤ) = 3 := by exact_mod_cast h3
  omega

/-- C3 (amended): `isValidAmount` accepts a value exactly when it is a
number (not `NaN`) in the inclusive range `[1, 70000]`; integrality is
not checked.  In particular every integer `1 ≤ n ≤ 70000` is accepted
and `NaN`, `0`, negatives and `70001` are rejected. -/
theorem isValidAmount_iff (v : JSNum) :
    isValidAmount v = true ↔ ∃ q : ℚ, v = JSNum.num q ∧ 1 ≤ q ∧ q ≤ 70000 := by
  cases v with
  | nan => simp [isValidAmount]
  | num q => simp [isValidAmount]

/-- C8: `formatPhoneNumber` maps the three sample inputs to
`"254712345678"`, throws on `"123"`, and every non-throwing result
matches `^254[0-9]{9}$` (exactly 12 digits beginning `254`). -/
theorem formatPhoneNumber_spec :
    formatPhoneNumber "0712345678" = .ok "254712345678" ∧
    formatPhoneNumber "+254712345678" = .ok "254712345678" ∧
    formatPhoneNumber "712345678" = .ok "254712345678" ∧
    formatPhoneNumber "123" =
      .error "Invalid phone number format. Use 254XXXXXXXXX format" ∧
    ∀ s r, formatPhoneNumber s = .ok r → matches254 r.data = true := by
  refine ⟨by decide, by decide, by decide, by decide, ?_⟩
  intro s r h
  by_cases hm : matches254 (normalizePhoneDigits s) = true
  · simp only [formatPhoneNumber, hm, if_true, Except.ok.injEq] at h
    rw [← h]
    exact hm
  · rw [Bool.not_eq_true] at hm
    simp only [formatPhoneNumber, hm, Bool.false_eq_true, if_false] at h
    exact Except.noConfusion h

/-- Witness for the C8 theorem: its universal clause applied to the
concrete call on `"0712345678"`. -/
theorem formatPhoneNumber_spec_witness :
    matches254 ("254712345678" : String).data = true :=
  formatPhoneNumber_spec.2.2.2.2 "0712345678" "254712345678" (by decide)

/-- C9: the callback HTTP handler answers status 200 for every request
body; the two concrete bodies show both the success branch and the
processing-failure branch, where only the JSON `success` flag differs. -/
theorem handleCallback_always_200 :
    (∀ body : CallbackData, (handleCallback body).1 = 200) ∧
    handleCallback ⟨none⟩ = (200, false) ∧
    handleCallback ⟨some ⟨some ⟨none, none, some 1032, none, none⟩⟩⟩ =
      (200, true) := by
  refine ⟨?_, by decide, by decide⟩
  intro body
  unfold handleCallback
  cases processCallback body <;> rfl

/-- C1: the transaction-type tag actually POSTed does not depend on the
reference.  For the reference `"TILL-001"` (which contains the `till`
marker case-insensitively) the selector of service lines 282–285
computes `"CustomerBuyGoodsOnline"`, yet the payload built at lines
302–314 carries the hard-coded literal `"CustomerPayBillOnline"`
(line 306) — the selected `transactionType` variable is never used, in
contradiction with the comment at line 281 announcing support for both
tags. -/
theorem initiateSTKPush_transactionType_hardcoded :
    selectTransactionType (some "TILL-001") = "CustomerBuyGoodsOnline" ∧
    initiateSTKPush ⟨"174379", "https://example.com/callback", "REF", "Payment"⟩
        "0712345678" 100 (some "TILL-001") none "pw" "20240101120000" =
      .ok { BusinessShortCode := "174379", Password := "pw",
            Timestamp := "20240101120000",
            TransactionType := "CustomerPayBillOnline", Amount := 100,
            PartyA := "254712345678", PartyB := "174379",
            PhoneNumber := "254712345678",
            CallBackURL := "https://example.com/callback",
            AccountReference := "TILL-001", TransactionDesc := "Payment" } := by
  constructor
  · decide
  · simp only [initiateSTKPush]
    rw [if_neg (by push_neg; exact ⟨by decide, by norm_num⟩)]
    rw [show formatPhoneNumber "0712345678" = Except.ok "254712345678" from
      by decide]
    dsimp only
    rw [if_neg (by push_neg; constructor <;> norm_num)]
    simp only [Except.ok.injEq, STKPushPayload.mk.injEq, jsRound, jsOrStr]
    norm_num
    decide

/-- C2 counterexample: a callback whose nested shape is present
(`Body.stkCallback` exists) with `ResultCode = 0` but no
`CallbackMetadata` makes `processCallback` raise
(`callbackMetadata.Item` throws a `TypeError`, rethrown as the
processing failure), while the claim says every shape-present input
yields a normalized result even on partial data. -/
theorem processCallback_raises_on_incomplete_success_data :
    processCallback ⟨some ⟨some ⟨none, none, some 0, none, none⟩⟩⟩ =
      .error "Failed to process M-Pesa callback" := by
  decide

/-- C2 (amended): `processCallback` raises exactly when the nested
shape `Body.stkCallback` is absent, or when `ResultCode = 0` and the
success metadata (`CallbackMetadata` with its `Item` list) is absent;
every structurally-valid callback with a result code other than `0`
yields a normalized `FAILED` record with no payment data — it never
raises solely because the result code is non-zero. -/
theorem processCallback_spec (cb : CallbackData) :
    ((∃ e, processCallback cb = .error e) ↔
      cb.Body = none ∨
      (∃ b, cb.Body = some b ∧ b.stkCallback = none) ∨
      (∃ b stk, cb.Body = some b ∧ b.stkCallback = some stk ∧
        stk.ResultCode = some 0 ∧
        (stk.CallbackMetadata = none ∨
          ∃ md, stk.CallbackMetadata = some md ∧ md.Item = none))) ∧
    (∀ b stk, cb.Body = some b → b.stkCallback = some stk →
      stk.ResultCode ≠ some 0 →
      processCallback cb = .ok
        { merchantRequestID := stk.MerchantRequestID,
          checkoutRequestID := stk.CheckoutRequestID,
          resultCode := stk.ResultCode,
          resultDesc := stk.ResultDesc,
          status := "FAILED",
          paymentData := none }) := by
  obtain ⟨body⟩ := cb
  constructor
  · cases body with
    | none => simp [processCallback]
    | some b =>
        obtain ⟨stkOpt⟩ := b
        cases stkOpt with
        | none => simp [processCallback]
        | some stk =>
            obtain ⟨mid, cid, rc, rd, mdOpt⟩ := stk
            by_cases h0 : rc = some 0
            · subst h0
              cases mdOpt with
              | none => simp [processCallback]
              | some md =>
                  obtain ⟨itemOpt⟩ := md
                  cases itemOpt with
                  | none => simp [processCallback]
                  | some items => simp [processCallback]
            · simp [processCallback, h0]
  · intro b stk hb hstk hne
    obtain ⟨stkOpt⟩ := b
    cases hb
    cases hstk
    simp [processCallback, hne]

/-- Witness for the C2 theorem: a structurally-valid callback with the
non-zero result code `1032` is processed into a `FAILED` record. -/
theorem processCallback_spec_witness :
    processCallback ⟨some ⟨some ⟨none, none, some 1032, none, none⟩⟩⟩ =
      .ok { merchantRequestID := none, checkoutRequestID := none,
            resultCode := some 1032, resultDesc := none,
            status := "FAILED", paymentData := none } :=
  (processCallback_spec ⟨some ⟨some ⟨none, none, some 1032, none, none⟩⟩⟩).2
    ⟨some ⟨none, none, some 1032, none, none⟩⟩
    ⟨none, none, some 1032, none, none⟩ rfl rfl (by decide)

/-- C5: with a truthy cached token and an expiry strictly after `now`,
`getAccessToken` returns the cached token, leaves the state unchanged
and performs zero network calls; otherwise it performs exactly one
credential-exchange call, and if that call succeeds with a truthy
token, the stored expiry is `now` plus the server-provided lifetime
minus the 60 second safety margin. -/
theorem getAccessToken_cache_spec :
    (∀ (st : TokenState) (now : ℤ) (net : NetResult) (tok : String) (e : ℤ),
      st.accessToken = some tok → tok ≠ "" → st.tokenExpiry = some e →
      now < e → getAccessToken st now net = (.ok tok, st, 0)) ∧
    (∀ (st : TokenState) (now : ℤ) (net : NetResult),
      cacheValid st now = false →
      (getAccessToken st now net).2.2 = 1 ∧
      ∀ (r : AuthResponse) (t : String), net = .ok r →
        r.access_token = some t → t ≠ "" →
        getAccessToken st now net =
          (.ok t, ⟨some t, some (now + (r.expires_in - 60))⟩, 1)) := by
  constructor
  · intro st now net tok e htok hne hexp hlt
    have hemp : tok.isEmpty = false := by
      rw [← Bool.not_eq_true, String.isEmpty_iff]
      exact hne
    have hv : cacheValid st now = true := by
      simp [cacheValid, htok, hexp, jsTruthyStr, hemp, hlt]
    simp [getAccessToken, hv, htok]
  · intro st now net hv
    constructor
    · simp only [getAccessToken, hv, Bool.false_eq_true, if_false]
      cases net with
      | err => rfl
      | ok r =>
          by_cases ht : jsTruthyStr r.access_token = true
          · simp [ht]
          · rw [Bool.not_eq_true] at ht
            simp [ht]
    · intro r t hnet hat hne
      subst hnet
      have hemp : t.isEmpty = false := by
        rw [← Bool.not_eq_true, String.isEmpty_iff]
        exact hne
      have ht : jsTruthyStr r.access_token = true := by
        simp [jsTruthyStr, hat, hemp]
      simp [getAccessToken, hv, ht, hat, jsTruthyStr, hemp]

/-- Witness for the C5 theorem: a hit on a valid cache returns the
cached `"tok"` with no network call, and a refresh from the empty
cache stores expiry `50 + (3600 - 60)`. -/
theorem getAccessToken_cache_spec_witness :
    getAccessToken ⟨some "tok", some 100⟩ 50 .err =
      (.ok "tok", ⟨some "tok", some 100⟩, 0) ∧
    getAccessToken ⟨none, none⟩ 50 (.ok ⟨some "newTok", 3600⟩) =
      (.ok "newTok", ⟨some "newTok", some (50 + (3600 - 60))⟩, 1) :=
  ⟨getAccessToken_cache_spec.1 ⟨some "tok", some 100⟩ 50 .err "tok" 100 rfl
      (by decide) rfl (by decide),
    (getAccessToken_cache_spec.2 ⟨none, none⟩ 50 (.ok ⟨some "newTok", 3600⟩)
      (by decide)).2 ⟨some "newTok", 3600⟩ "newTok" rfl rfl (by decide)⟩

/-- C6 counterexample: starting from the expired `VALID` state
(token `"stale"`, expiry `5`, now `10`), a failed credential exchange
raises the auth failure but leaves the stale token value in the cache
fields — the state afterwards is not `EMPTY`, contradicting the claim
that no token value is retained after a failed refresh. -/
theorem getAccessToken_failed_refresh_keeps_stale_token :
    getAccessToken ⟨some "stale", some 5⟩ 10 .err =
      (.error (), ⟨some "stale", some 5⟩, 1) ∧
    (⟨some "stale", some 5⟩ : TokenState).accessToken ≠ none := by
  exact ⟨by decide, by decide⟩

/-- C6 (amended): when the cache-hit guard fails and the credential
exchange fails, `getAccessToken` raises the auth failure after exactly
one call and leaves both cache fields exactly as they were: from
`EMPTY` it remains `EMPTY`, while a stale expired token value from an
earlier `VALID` state is retained (it is never served, since the guard
already rejected it). -/
theorem getAccessToken_failure_frame (st : TokenState) (now : ℤ)
    (net : NetResult) (hmiss : cacheValid st now = false)
    (hfail : exchangeFails net = true) :
    getAccessToken st now net = (.error (), st, 1) := by
  cases net with
  | err => simp [getAccessToken, hmiss]
  | ok r =>
      have ht : jsTruthyStr r.access_token = false := by
        simpa [exchangeFails] using hfail
      simp [getAccessToken, hmiss, ht]

/-- Witness for the C6 theorem: a failed exchange from the `EMPTY`
state raises and leaves the state `EMPTY`. -/
theorem getAccessToken_failure_frame_witness :
    getAccessToken ⟨none, none⟩ 0 .err = (.error (), ⟨none, none⟩, 1) :=
  getAccessToken_failure_frame ⟨none, none⟩ 0 .err (by decide) (by decide)

/-- C7: for a record of past timestamps, the count the limiter uses is
exactly the number of recorded timestamps strictly inside
`(now - w, now]`; below capacity the request is admitted and `now` is
appended (to the pruned record); at or above capacity it is rejected,
the stored record is untouched, and the retry-after estimate is the
positive number of seconds (rounded up) until the oldest retained
timestamp exits the window. -/
theorem rateLimit_spec (c : ℕ) (w : ℤ) (record : List ℤ) (now : ℤ)
    (hc : 0 < c) (hpast : ∀ t ∈ record, t ≤ now) :
    (record.filter (fun t => now - w < t) =
      record.filter (fun t => now - w < t ∧ t ≤ now)) ∧
    ((record.filter (fun t => now - w < t)).length < c →
      rateLimit c w record now =
        (.allowed, record.filter (fun t => now - w < t) ++ [now])) ∧
    (c ≤ (record.filter (fun t => now - w < t)).length →
      ∃ oldest, (record.filter (fun t => now - w < t)).head? = some oldest ∧
        rateLimit c w record now =
          (.limited ((oldest + w - now + 999) / 1000), record) ∧
        0 < (oldest + w - now + 999) / 1000) := by
  refine ⟨?_, ?_, ?_⟩
  · apply List.filter_congr
    intro t ht
    rw [decide_eq_decide]
    exact ⟨fun h => ⟨h, hpast t ht⟩, fun h => h.1⟩
  · intro hlen
    simp [rateLimit, Nat.not_le.mpr hlen]
  · intro hlen
    have hne : record.filter (fun t => now - w < t) ≠ [] := by
      intro h
      rw [h] at hlen
      simp at hlen
      omega
    obtain ⟨oldest, rest, heq⟩ := List.exists_cons_of_ne_nil hne
    have hmem : oldest ∈ record.filter (fun t => now - w < t) := by
      rw [heq]
      exact List.mem_cons_self oldest rest
    have hlt : now - w < oldest := by
      have := List.of_mem_filter hmem
      simpa using this
    refine ⟨oldest, by rw [heq]; rfl, ?_, by omega⟩
    simp only [rateLimit, heq, hlen, if_pos, List.headD_cons]
    rw [if_pos]
    rw [heq] at hlen
    exact hlen

/-- Witness for the C7 theorem: three timestamps inside the window at
capacity 3 reject the next request with a one-second retry-after and
an unchanged record. -/
theorem rateLimit_spec_witness :
    ∃ oldest,
      (([100, 200, 300] : List ℤ).filter
        (fun t => (500 : ℤ) - 1000 < t)).head? = some oldest ∧
      rateLimit 3 1000 [100, 200, 300] 500 =
        (.limited ((oldest + 1000 - 500 + 999) / 1000), [100, 200, 300]) ∧
      0 < (oldest + 1000 - 500 + 999) / 1000 :=
  (rateLimit_spec 3 1000 [100, 200, 300] 500 (by decide) (by decide)).2.2
    (by decide)

/-- C10: when the rate limiter rejects a request, the stored record for
the client is returned completely unchanged — the source returns the
429 response before `rateLimitStore.set`, so neither the current
timestamp nor the lazily pruned (filtered) copy is written back. -/
theorem rateLimit_reject_leaves_record_unchanged (c : ℕ) (w : ℤ)
    (record : List ℤ) (now : ℤ)
    (h : c ≤ (record.filter (fun t => now - w < t)).length) :
    (rateLimit c w record now).2 = record := by
  simp [rateLimit, h]

/-- Witness for the C10 theorem: a rejection with a stale `-5000` entry
in the record — the pruned copy drops it, but the stored record still
contains it afterwards. -/
theorem rateLimit_reject_leaves_record_unchanged_witness :
    1 ≤ (([-5000, 100] : List ℤ).filter
      (fun t => (500 : ℤ) - 1000 < t)).length ∧
    (rateLimit 1 1000 [-5000, 100] 500).2 = [-5000, 100] :=
  ⟨by decide,
    rateLimit_reject_leaves_record_unchanged 1 1000 [-5000, 100] 500
      (by decide)⟩

end Mpesa
